import Mathlib

set_option maxHeartbeats 1000000

/-!
Shallow embedding of the device-record management logic of
`core/metadata/rest_device.go` (EdgeX metadata service), together with
theorems settling the frozen claims about it.

Registry lookups and mutations (`dbClient.*`) are modelled as fields of an
environment record `DBEnv`; each returns `Except DBErr α`, where
`DBErr.errNotFound` plays the role of `mgo.ErrNotFound` and
`DBErr.errNotUnique` the role of `db.ErrNotUnique`.  Stateful registry
mutations (`AddDevice`, `UpdateDevice`) are modelled as functions from a
device list (the device table) to a new device list.  HTTP responses are
modelled by the `HResp` sum; the HTTP status codes used by the Go handlers
are recorded in the constructor names (`conflictResp` = 409,
`unavailResp` = 503, `notFoundResp` = 404, `okResp` = 200) and `silent`
stands for a handler `return` that writes neither a status nor a body.
-/

namespace EdgexMetadata

/-- Error outcome of a registry (`dbClient`) call. -/
inductive DBErr where
  | errNotFound
  | errNotUnique
  | other : String → DBErr
  deriving DecidableEq, Repr

/-- Message text of a registry error (`err.Error()` in Go). -/
def dbErrMsg : DBErr → String
  | DBErr.errNotFound => "not found"
  | DBErr.errNotUnique => "duplicate name"
  | DBErr.other s => s

/-- Addressable record; only the identity fields consulted by
`rest_device.go` (Id, Name) are modelled, the network fields are elided. -/
structure Addressable where
  id : String
  name : String
  deriving DecidableEq, Repr

/-- Inner `Service` value embedded in a `DeviceService` (Go:
`ds.Service.Id`, `ds.Service.Name`). -/
structure Service where
  id : String
  name : String
  deriving DecidableEq, Repr

/-- DeviceService record, embedding a `Service`. -/
structure DeviceService where
  service : Service
  deriving DecidableEq, Repr

/-- DeviceProfile record; identity fields only. -/
structure DeviceProfile where
  id : String
  name : String
  deriving DecidableEq, Repr

/-- Device record as used by `rest_device.go`.  `labels` and `location`
are `Option`-valued because the Go code distinguishes a nil slice /
nil interface from an empty one (`from.Labels != nil`,
`from.Location != nil`). -/
structure Device where
  id : String
  name : String
  addressable : Addressable
  service : DeviceService
  profile : DeviceProfile
  adminState : String
  operatingState : String
  description : String
  labels : Option (List String)
  lastConnected : Int
  lastReported : Int
  location : Option String
  origin : Int
  deriving DecidableEq, Repr

/-- Go zero value `models.Addressable{}`. -/
def Addressable.empty : Addressable := ⟨"", ""⟩

/-- Go zero value of the inner `Service`. -/
def Service.empty : Service := ⟨"", ""⟩

/-- Go zero value `models.DeviceService{}` (compared via `.String()` in the
source; `String()` renders the full record, so string equality coincides
with structural equality here). -/
def DeviceService.empty : DeviceService := ⟨Service.empty⟩

/-- Go zero value `models.DeviceProfile{}` (same remark as for
`DeviceService.empty`). -/
def DeviceProfile.empty : DeviceProfile := ⟨"", ""⟩

/-- Go zero value `models.Device{}`. -/
def Device.empty : Device :=
  ⟨"", "", Addressable.empty, DeviceService.empty, DeviceProfile.empty,
   "", "", "", none, 0, 0, none, 0⟩

/-- DeviceReport record; `device` is the name of the owning device. -/
structure DeviceReport where
  id : String
  name : String
  device : String
  deriving DecidableEq, Repr

/-- Environment of registry and notifier operations consumed by the
handlers (the `dbClient` facade plus the associate notifier).  Each getter
mirrors one `dbClient.GetX` method; `addDevice` / `updateDevice` act on the
device table and return the new table; `deleteDeviceRecord` /
`deleteDeviceReport` are modelled as oracles reporting success or failure
of the underlying store call (their state effect is tracked by the delete
outcome record of the workflow). -/
structure DBEnv where
  getAddressableById : String → Except DBErr Addressable
  getAddressableByName : String → Except DBErr Addressable
  getDeviceServiceById : String → Except DBErr DeviceService
  getDeviceServiceByName : String → Except DBErr DeviceService
  getDeviceProfileById : String → Except DBErr DeviceProfile
  getDeviceProfileByName : String → Except DBErr DeviceProfile
  getDeviceById : String → Except DBErr Device
  getDeviceByName : String → Except DBErr Device
  getDeviceReportsByDeviceName : String → Except DBErr (List DeviceReport)
  addDevice : List Device → Device → Except DBErr (List Device)
  updateDevice : List Device → Device → Except DBErr (List Device)
  deleteDeviceRecord : Device → Except DBErr Unit
  deleteDeviceReport : DeviceReport → Except DBErr Unit
  notifyAssociates : List DeviceService → String → String → Except DBErr Unit

/-- HTTP response written by a handler.  `silent` models a handler that
returns without writing an error or a body. -/
inductive HResp where
  | conflictResp : String → HResp
  | unavailResp : String → HResp
  | notFoundResp : String → HResp
  | okResp : String → HResp
  | silent
  deriving DecidableEq, Repr

/-- Lookup by name first and, only on failure of the name lookup, by id.
This is the resolution order used by `restAddNewDevice` for Addressable,
Service and Profile (source lines 69-106: "Try by name" then "Try by ID");
the error of the id attempt is the one reported. -/
def lookupNameThenId {α : Type} (byName byId : String → Except DBErr α)
    (nameKey idKey : String) : Except DBErr α :=
  match byName nameKey with
  | Except.ok a => Except.ok a
  | Except.error _ => byId idKey

/-- Lookup by id first and, only on failure of the id lookup, by name.
This is the resolution order used by `updateDeviceFields` (source lines
183-227: "Try ID first" then "Then try name"). -/
def lookupIdThenName {α : Type} (byId byName : String → Except DBErr α)
    (idKey nameKey : String) : Except DBErr α :=
  match byId idKey with
  | Except.ok a => Except.ok a
  | Except.error _ => byName nameKey

/-- Error raised by `updateDeviceFields`. -/
inductive UpdErr where
  | addrNotFound
  | svcNotFound
  | profNotFound
  | dupName
  | dbFail : DBErr → UpdErr
  deriving DecidableEq, Repr

/-- Message text of an `updateDeviceFields` error, as written into the
HTTP response by `restUpdateDevice`. -/
def updErrMsg : UpdErr → String
  | UpdErr.addrNotFound => "Addressable not found for updated device"
  | UpdErr.svcNotFound => "Device service not found for updated device"
  | UpdErr.profNotFound => "Device profile not found for updated device"
  | UpdErr.dupName => "Duplicate name for Device"
  | UpdErr.dbFail e => dbErrMsg e

/-- Field merge of `updateDeviceFields(from, to)` (source lines 182-278):
each patch field overwrites the existing record only when it is non-zero,
in the fixed source order Addressable, Service, Profile, AdminState,
Description, Labels, LastConnected, LastReported, Location,
OperatingState, Origin, Name.  Reference fields are re-resolved id-first
then name; the Name branch re-checks uniqueness via `GetDeviceByName`,
where `errNotFound` is not an error and a hit with a different Id is a
duplicate-name error. -/
def updateDeviceFields (env : DBEnv) (f : Device) (t0 : Device) :
    Except UpdErr Device :=
  -- if (from.Addressable != models.Addressable{})
  match (if f.addressable ≠ Addressable.empty then
          match lookupIdThenName env.getAddressableById env.getAddressableByName
              f.addressable.id f.addressable.name with
          | Except.ok a => Except.ok { t0 with addressable := a }
          | Except.error _ => Except.error UpdErr.addrNotFound
         else Except.ok t0) with
  | Except.error e => Except.error e
  | Except.ok t1 =>
  -- if (from.Service.String() != models.DeviceService{}.String())
  match (if f.service ≠ DeviceService.empty then
          match lookupIdThenName env.getDeviceServiceById env.getDeviceServiceByName
              f.service.service.id f.service.service.name with
          | Except.ok ds => Except.ok { t1 with service := ds }
          | Except.error _ => Except.error UpdErr.svcNotFound
         else Except.ok t1) with
  | Except.error e => Except.error e
  | Except.ok t2 =>
  -- if (from.Profile.String() != models.DeviceProfile{}.String())
  match (if f.profile ≠ DeviceProfile.empty then
          match lookupIdThenName env.getDeviceProfileById env.getDeviceProfileByName
              f.profile.id f.profile.name with
          | Except.ok dp => Except.ok { t2 with profile := dp }
          | Except.error _ => Except.error UpdErr.profNotFound
         else Except.ok t2) with
  | Except.error e => Except.error e
  | Except.ok t3 =>
  let t4 := if f.adminState ≠ "" then { t3 with adminState := f.adminState } else t3
  let t5 := if f.description ≠ "" then { t4 with description := f.description } else t4
  let t6 := match f.labels with
            | some l => { t5 with labels := some l }
            | none => t5
  let t7 := if f.lastConnected ≠ 0 then { t6 with lastConnected := f.lastConnected } else t6
  let t8 := if f.lastReported ≠ 0 then { t7 with lastReported := f.lastReported } else t7
  let t9 := match f.location with
            | some loc => { t8 with location := some loc }
            | none => t8
  let t10 := if f.operatingState ≠ "" then { t9 with operatingState := f.operatingState } else t9
  let t11 := if f.origin ≠ 0 then { t10 with origin := f.origin } else t10
  if f.name ≠ "" then
    let t12 := { t11 with name := f.name }
    -- uniqueness re-check: GetDeviceByName(from.Name)
    match env.getDeviceByName f.name with
    | Except.error DBErr.errNotFound => Except.ok t12
    | Except.error e => Except.error (UpdErr.dbFail e)
    | Except.ok checkD =>
        if checkD.id ≠ t12.id then Except.error UpdErr.dupName
        else Except.ok t12
  else
    Except.ok t11

/-- HTTP method string `http.MethodPost`. -/
def methodPost : String := "POST"

/-- HTTP method string `http.MethodPut`. -/
def methodPut : String := "PUT"

/-- HTTP method string `http.MethodDelete`. -/
def methodDelete : String := "DELETE"

/-- Body `"true"` written by the mutating handlers on success. -/
def respTrue : String := "true"

/-- Suffix of the Addressable-resolution conflict message in
`restAddNewDevice`. -/
def msgAddrAssoc : String := ": A device must be associated to an Addressable"

/-- Suffix of the Service-resolution conflict message in
`restAddNewDevice`. -/
def msgSvcAssoc : String := ": A device must be associated with a device service"

/-- Suffix of the Profile-resolution conflict message in
`restAddNewDevice`. -/
def msgProfAssoc : String := ": A device must be associated with a device profile"

/-- Conflict message for an empty operating or admin state at creation
(apostrophe of the source text elided). -/
def msgNullStates : String := "Device cannot have null operating state or admin state"

/-- Conflict message for a duplicate device name at creation. -/
def msgDupDevice : String := "Duplicate name for device"

/-- Error message for an operating-state string outside the enumeration
(quotes of the source text elided).  The source delivers it with HTTP
status 503; in the error taxonomy of the spec it is the InvalidInput
case (malformed enumerated value). -/
def msgInvalidOpState (os : String) : String :=
  "Invalid State: " ++ os ++ " Must be ENABLED or DISABLED"

/-- Associate notification `notifyDeviceAssociates(d, action)` (source
lines 1195-1213): the external `postNotification` is config-gated and
fire-and-forget (its outcome is never observed), so it is elided here;
then the owning service is fetched by its embedded service id and the
associate notifier is invoked with a one-element service list; either
failure is returned. -/
def notifyDeviceAssociates (env : DBEnv) (d : Device) (action : String) :
    Except DBErr Unit :=
  match env.getDeviceServiceById d.service.service.id with
  | Except.error e => Except.error e
  | Except.ok ds => env.notifyAssociates [ds] d.id action

/-- Creation handler `restAddNewDevice` (source lines 58-133): resolves
Addressable, Service and Profile each by name first then by id (replacing
the embedded copies), requires both states non-empty, submits to
`AddDevice` mapping `ErrNotUnique` to a 409 conflict and any other error
to a 503, then calls `notifyDeviceAssociates` discarding its result, and
answers 200 with the device id. -/
def restAddNewDevice (env : DBEnv) (devs : List Device) (d : Device) :
    HResp × List Device :=
  match lookupNameThenId env.getAddressableByName env.getAddressableById
      d.addressable.name d.addressable.id with
  | Except.error e => (HResp.conflictResp (dbErrMsg e ++ msgAddrAssoc), devs)
  | Except.ok a =>
  match lookupNameThenId env.getDeviceServiceByName env.getDeviceServiceById
      d.service.service.name d.service.service.id with
  | Except.error e => (HResp.conflictResp (dbErrMsg e ++ msgSvcAssoc), devs)
  | Except.ok ds =>
  match lookupNameThenId env.getDeviceProfileByName env.getDeviceProfileById
      d.profile.name d.profile.id with
  | Except.error e => (HResp.conflictResp (dbErrMsg e ++ msgProfAssoc), devs)
  | Except.ok dp =>
  let d2 := { d with addressable := a, service := ds, profile := dp }
  if d2.operatingState = "" ∨ d2.adminState = "" then
    (HResp.conflictResp msgNullStates, devs)
  else
    match env.addDevice devs d2 with
    | Except.error DBErr.errNotUnique => (HResp.conflictResp msgDupDevice, devs)
    | Except.error e => (HResp.unavailResp (dbErrMsg e), devs)
    | Except.ok devs2 =>
        -- notifyDeviceAssociates(d, http.MethodPost): result discarded
        let _ := notifyDeviceAssociates env d2 methodPost
        (HResp.okResp d2.id, devs2)

/-- Tail of `restUpdateDevice` after the existing device has been found:
merge the patch, persist via `UpdateDevice`, notify (result discarded),
answer 200 `"true"`. -/
def restUpdateDeviceCont (env : DBEnv) (devs : List Device)
    (rd oldDevice : Device) : HResp × List Device :=
  match updateDeviceFields env rd oldDevice with
  | Except.error e => (HResp.unavailResp (updErrMsg e), devs)
  | Except.ok merged =>
    match env.updateDevice devs merged with
    | Except.error e => (HResp.unavailResp (dbErrMsg e), devs)
    | Except.ok devs2 =>
        -- notifyDeviceAssociates(oldDevice, http.MethodPut): result discarded
        let _ := notifyDeviceAssociates env merged methodPut
        (HResp.okResp respTrue, devs2)

/-- Update handler `restUpdateDevice` (source lines 138-179): the
existing device is looked up by Id first, then by Name; if neither
resolves the handler answers 404 with the name-lookup error and changes
nothing. -/
def restUpdateDevice (env : DBEnv) (devs : List Device) (rd : Device) :
    HResp × List Device :=
  match env.getDeviceById rd.id with
  | Except.ok oldDevice => restUpdateDeviceCont env devs rd oldDevice
  | Except.error _ =>
    match env.getDeviceByName rd.name with
    | Except.ok oldDevice => restUpdateDeviceCont env devs rd oldDevice
    | Except.error e => (HResp.notFoundResp (dbErrMsg e), devs)

/-- Modelled from the spec: `models.GetOperatingState` lives outside
`src/`; per the spec the operating-state enumeration is exactly
{ENABLED, DISABLED}, so the parse succeeds exactly on those strings. -/
def GetOperatingState (os : String) : Option String :=
  if os = "ENABLED" ∨ os = "DISABLED" then some os else none

/-- Handler `restSetDeviceOpStateById` (source lines 551-593): parse the
state, fetch by id, set `OperatingState`, persist.  The source reads
`if err = dbClient.UpdateDevice(d); err != nil { return }`: a persistence
failure returns silently (no error response), and the 503 branch that
follows it can only run with `err == nil`, so it is dead code (here the
`ok` branch goes straight to the success response). -/
def restSetDeviceOpStateById (env : DBEnv) (devs : List Device)
    (did os : String) : HResp × List Device :=
  match GetOperatingState os with
  | none => (HResp.unavailResp (msgInvalidOpState os), devs)
  | some newOs =>
    match env.getDeviceById did with
    | Except.error DBErr.errNotFound =>
        (HResp.notFoundResp (dbErrMsg DBErr.errNotFound), devs)
    | Except.error e => (HResp.unavailResp (dbErrMsg e), devs)
    | Except.ok d =>
      let d2 := { d with operatingState := newOs }
      match env.updateDevice devs d2 with
      | Except.error _ => (HResp.silent, devs)
      | Except.ok devs2 =>
          -- notifyDeviceAssociates(d, http.MethodPut): result discarded
          let _ := notifyDeviceAssociates env d2 methodPut
          (HResp.okResp respTrue, devs2)

/-- Handler `restSetDeviceOpStateByName` (source lines 595-639): same as
the by-id variant except the device is fetched by name and a persistence
failure is properly answered with a 503. -/
def restSetDeviceOpStateByName (env : DBEnv) (devs : List Device)
    (n os : String) : HResp × List Device :=
  match GetOperatingState os with
  | none => (HResp.unavailResp (msgInvalidOpState os), devs)
  | some newOs =>
    match env.getDeviceByName n with
    | Except.error DBErr.errNotFound =>
        (HResp.notFoundResp (dbErrMsg DBErr.errNotFound), devs)
    | Except.error e => (HResp.unavailResp (dbErrMsg e), devs)
    | Except.ok d =>
      let d2 := { d with operatingState := newOs }
      match env.updateDevice devs d2 with
      | Except.error e => (HResp.unavailResp (dbErrMsg e), devs)
      | Except.ok devs2 =>
          -- notifyDeviceAssociates(d, http.MethodPut): result discarded
          let _ := notifyDeviceAssociates env d2 methodPut
          (HResp.okResp respTrue, devs2)

/-- Trace of the per-report deletion loop: overall result, the reports
deleted so far (in order), and the reports for which a deletion
notification was dispatched. -/
structure ReportLoopOut where
  result : Except DBErr Unit
  deleted : List DeviceReport
  notified : List DeviceReport
  deriving Repr

/-- Loop body of `deleteAssociatedReportsForDevice` (source lines
818-825): delete each report in enumeration order; on the first failure
abort with that error; after each successful deletion dispatch
`notifyDeviceReportAssociates(report, DELETE)` (fire-and-forget, recorded
in the trace). -/
def deleteReportsLoop (env : DBEnv) : List DeviceReport → ReportLoopOut
  | [] => ⟨Except.ok (), [], []⟩
  | r :: rs =>
    match env.deleteDeviceReport r with
    | Except.error e => ⟨Except.error e, [], []⟩
    | Except.ok _ =>
      let out := deleteReportsLoop env rs
      ⟨out.result, r :: out.deleted, r :: out.notified⟩

/-- Function `deleteAssociatedReportsForDevice` (source lines 809-828):
fetch the reports owned by the device name, then run the deletion loop. -/
def deleteAssociatedReportsForDevice (env : DBEnv) (d : Device) :
    ReportLoopOut :=
  match env.getDeviceReportsByDeviceName d.name with
  | Except.error e => ⟨Except.error e, [], []⟩
  | Except.ok reports => deleteReportsLoop env reports

/-- Outcome of the cascade delete: result surfaced to the caller, trace
of report deletions/notifications, and whether the device record itself
was deleted. -/
structure DelOutcome where
  result : Except DBErr Unit
  deletedReports : List DeviceReport
  notifiedReports : List DeviceReport
  deviceDeleted : Bool
  deriving Repr

/-- Cascade delete `deleteDevice` (source lines 788-806): delete the
dependent reports first, aborting on failure with the device untouched;
then delete the device record; then notify the associates, whose failure
is returned even though the device is already deleted. -/
def deleteDevice (env : DBEnv) (d : Device) : DelOutcome :=
  let out := deleteAssociatedReportsForDevice env d
  match out.result with
  | Except.error e => ⟨Except.error e, out.deleted, out.notified, false⟩
  | Except.ok _ =>
    match env.deleteDeviceRecord d with
    | Except.error e => ⟨Except.error e, out.deleted, out.notified, false⟩
    | Except.ok _ =>
      match notifyDeviceAssociates env d methodDelete with
      | Except.error e => ⟨Except.error e, out.deleted, out.notified, true⟩
      | Except.ok _ => ⟨Except.ok (), out.deleted, out.notified, true⟩

/-- Modelled from the spec: the registry facade member `AddDevice` is not
under `src/`; per the spec the registry enforces Name uniqueness
authoritatively, rejecting a duplicate with the not-unique error and
persisting nothing in that case. -/
def addDeviceModel (devs : List Device) (d : Device) :
    Except DBErr (List Device) :=
  if devs.any (fun x => x.name = d.name) then Except.error DBErr.errNotUnique
  else Except.ok (devs ++ [d])

/-- Modelled from the spec: the registry facade member `UpdateDevice` replaces
the record with the matching Id. -/
def updateDeviceModel (devs : List Device) (d : Device) :
    Except DBErr (List Device) :=
  Except.ok (devs.map (fun x => if x.id = d.id then d else x))

/-! Concrete registry fixtures used by the witness theorems. -/

/-- Lift of `List.find?` to the registry lookup result type: the first
matching record, or the not-found error. -/
def findRec {α : Type} (l : List α) (p : α → Bool) : Except DBErr α :=
  match l.find? p with
  | some x => Except.ok x
  | none => Except.error DBErr.errNotFound

/-- Registry environment backed by fixed record lists, with the
spec-modelled add/update operations and always-succeeding delete and
notify operations. -/
def mkEnv (addrs : List Addressable) (svcs : List DeviceService)
    (profs : List DeviceProfile) (devs : List Device)
    (reports : List DeviceReport) : DBEnv where
  getAddressableById := fun i => findRec addrs (fun a => a.id == i)
  getAddressableByName := fun n => findRec addrs (fun a => a.name == n)
  getDeviceServiceById := fun i => findRec svcs (fun s => s.service.id == i)
  getDeviceServiceByName := fun n => findRec svcs (fun s => s.service.name == n)
  getDeviceProfileById := fun i => findRec profs (fun p => p.id == i)
  getDeviceProfileByName := fun n => findRec profs (fun p => p.name == n)
  getDeviceById := fun i => findRec devs (fun d => d.id == i)
  getDeviceByName := fun n => findRec devs (fun d => d.name == n)
  getDeviceReportsByDeviceName := fun n =>
    Except.ok (reports.filter (fun r => r.device == n))
  addDevice := addDeviceModel
  updateDevice := updateDeviceModel
  deleteDeviceRecord := fun _ => Except.ok ()
  deleteDeviceReport := fun _ => Except.ok ()
  notifyAssociates := fun _ _ _ => Except.ok ()

/-- Fixture addressable. -/
def addr1 : Addressable := ⟨"aid1", "addr1"⟩

/-- Second fixture addressable, distinct from `addr1`. -/
def addr2 : Addressable := ⟨"aid2", "addr2"⟩

/-- Fixture device service. -/
def svc1 : DeviceService := ⟨⟨"sid1", "svcname1"⟩⟩

/-- Fixture device profile. -/
def prof1 : DeviceProfile := ⟨"pid1", "prof1"⟩

/-- Fixture device owned by `svc1`. -/
def dev1 : Device :=
  ⟨"did1", "d1", addr1, svc1, prof1, "UNLOCKED", "ENABLED",
   "first device", some ["lab1"], 3, 4, some ["loc1"].head!, 5⟩

/-- Second fixture device with a different identity and name. -/
def dev2 : Device := { dev1 with id := "did2", name := "d2" }

/-- Fixture report owned by `dev1`. -/
def rep1 : DeviceReport := ⟨"rid1", "r1", "d1"⟩

/-- Second fixture report owned by `dev1`. -/
def rep2 : DeviceReport := ⟨"rid2", "r2", "d1"⟩

/-- Third fixture report owned by `dev1`. -/
def rep3 : DeviceReport := ⟨"rid3", "r3", "d1"⟩

/-- Standard fixture environment. -/
def testEnv : DBEnv :=
  mkEnv [addr1, addr2] [svc1] [prof1] [dev1, dev2] [rep1, rep2, rep3]

/-- Fresh device name used by witnesses, matching no fixture device. -/
def freshName : String := "d9"

/-! Claim C4. -/

/-- Patch whose only non-zero field is Name (every other field holds the
Go zero value). -/
def onlyNamePatch (n : String) : Device := { Device.empty with name := n }

/-- Reduction of the field merge on a name-only patch: every field guard
except the Name one is off, so the merge is just the name overwrite plus
the uniqueness re-check. -/
theorem updateDeviceFields_onlyName (env : DBEnv) (t : Device) (n : String) :
    updateDeviceFields env (onlyNamePatch n) t =
      (if n ≠ "" then
        match env.getDeviceByName n with
        | Except.error DBErr.errNotFound => Except.ok { t with name := n }
        | Except.error e => Except.error (UpdErr.dbFail e)
        | Except.ok checkD =>
            if checkD.id ≠ t.id then Except.error UpdErr.dupName
            else Except.ok { t with name := n }
       else Except.ok t) := by
  simp only [updateDeviceFields, onlyNamePatch, Device.empty,
    Addressable.empty, DeviceService.empty, Service.empty,
    DeviceProfile.empty, ne_eq]
  norm_num

/-- C4: for every existing device and every update patch whose only
non-zero field is Name, the merge `updateDeviceFields` leaves every other
field of the existing record (Addressable, Service, Profile, AdminState,
Description, Labels, LastConnected, LastReported, Location,
OperatingState, Origin) unchanged. -/
theorem c4_name_only_patch_preserves_other_fields (env : DBEnv)
    (t t2 : Device) (n : String)
    (h : updateDeviceFields env (onlyNamePatch n) t = Except.ok t2) :
    t2.addressable = t.addressable ∧ t2.service = t.service ∧
    t2.profile = t.profile ∧ t2.adminState = t.adminState ∧
    t2.description = t.description ∧ t2.labels = t.labels ∧
    t2.lastConnected = t.lastConnected ∧ t2.lastReported = t.lastReported ∧
    t2.location = t.location ∧ t2.operatingState = t.operatingState ∧
    t2.origin = t.origin := by
  rw [updateDeviceFields_onlyName] at h
  split at h
  · split at h
    · cases h; simp
    · cases h
    · split at h
      · cases h
      · cases h; simp
  · cases h; simp

/-- Device name of fixture `dev1`. -/
def nameD1 : String := "d1"

/-- Device name of fixture `dev2`. -/
def nameD2 : String := "d2"

/-- Witness for C4 at a concrete input: renaming `dev1` to the fresh name
keeps every other field. -/
theorem c4_witness :
    updateDeviceFields testEnv (onlyNamePatch freshName) dev1 =
      Except.ok { dev1 with name := freshName } ∧
    (({ dev1 with name := freshName } : Device).addressable = dev1.addressable ∧
     ({ dev1 with name := freshName } : Device).service = dev1.service ∧
     ({ dev1 with name := freshName } : Device).profile = dev1.profile ∧
     ({ dev1 with name := freshName } : Device).adminState = dev1.adminState ∧
     ({ dev1 with name := freshName } : Device).description = dev1.description ∧
     ({ dev1 with name := freshName } : Device).labels = dev1.labels ∧
     ({ dev1 with name := freshName } : Device).lastConnected = dev1.lastConnected ∧
     ({ dev1 with name := freshName } : Device).lastReported = dev1.lastReported ∧
     ({ dev1 with name := freshName } : Device).location = dev1.location ∧
     ({ dev1 with name := freshName } : Device).operatingState = dev1.operatingState ∧
     ({ dev1 with name := freshName } : Device).origin = dev1.origin) :=
  ⟨by rfl,
   c4_name_only_patch_preserves_other_fields testEnv dev1
     { dev1 with name := freshName } freshName (by rfl)⟩

/-- C5: merging a patch that sets Name to a name held by a device with a
different identity fails with the duplicate-name error; setting it to a
name whose lookup returns a device with the same identity (in particular
the own current name of the device) succeeds; a not-found outcome of the
uniqueness lookup is not an error. -/
theorem c5_name_uniqueness_check (env : DBEnv) (t : Device) (n : String)
    (hn : n ≠ "") :
    (∀ d2, env.getDeviceByName n = Except.ok d2 → d2.id ≠ t.id →
      updateDeviceFields env (onlyNamePatch n) t =
        Except.error UpdErr.dupName) ∧
    (∀ d2, env.getDeviceByName n = Except.ok d2 → d2.id = t.id →
      updateDeviceFields env (onlyNamePatch n) t =
        Except.ok { t with name := n }) ∧
    (env.getDeviceByName n = Except.error DBErr.errNotFound →
      updateDeviceFields env (onlyNamePatch n) t =
        Except.ok { t with name := n }) := by
  refine ⟨?_, ?_, ?_⟩
  · intro d2 hg hne
    rw [updateDeviceFields_onlyName]
    simp [hn, hg, hne]
  · intro d2 hg heq
    rw [updateDeviceFields_onlyName]
    simp [hn, hg, heq]
  · intro hg
    rw [updateDeviceFields_onlyName]
    simp [hn, hg]

/-- Witness for C5 at concrete inputs: renaming `dev1` to `d2` (held by
`dev2`) is a duplicate-name error, renaming it to its own name `d1`
succeeds, and renaming it to the fresh name `d9` succeeds. -/
theorem c5_witness :
    updateDeviceFields testEnv (onlyNamePatch nameD2) dev1 =
      Except.error UpdErr.dupName ∧
    updateDeviceFields testEnv (onlyNamePatch nameD1) dev1 =
      Except.ok { dev1 with name := nameD1 } ∧
    updateDeviceFields testEnv (onlyNamePatch freshName) dev1 =
      Except.ok { dev1 with name := freshName } :=
  ⟨(c5_name_uniqueness_check testEnv dev1 nameD2 (by decide)).1 dev2
     (by rfl) (by decide),
   (c5_name_uniqueness_check testEnv dev1 nameD1 (by decide)).2.1 dev1
     (by rfl) rfl,
   (c5_name_uniqueness_check testEnv dev1 freshName (by decide)).2.2
     (by rfl)⟩

/-- Device id of fixture `dev1`. -/
def idD1 : String := "did1"

/-- Device id matching no fixture device. -/
def freshId : String := "did9"

/-- Operating-state string outside the enumeration. -/
def badState : String := "ON"

/-- Valid operating-state string. -/
def stateEnabled : String := "ENABLED"

/-- Error message of the failing store used by witnesses. -/
def msgDown : String := "store down"

/-- C8: for every update patch, the existing device is looked up by Id
first (when that succeeds, the Name lookup plays no role), and only on
its failure by Name; if neither lookup resolves, the handler answers
NotFound and performs no merge and no persist (the device table comes
back unchanged). -/
theorem c8_update_lookup_id_then_name (env : DBEnv) (devs : List Device)
    (rd : Device) :
    (∀ old, env.getDeviceById rd.id = Except.ok old →
      restUpdateDevice env devs rd = restUpdateDeviceCont env devs rd old) ∧
    (∀ e old, env.getDeviceById rd.id = Except.error e →
      env.getDeviceByName rd.name = Except.ok old →
      restUpdateDevice env devs rd = restUpdateDeviceCont env devs rd old) ∧
    (∀ e e2, env.getDeviceById rd.id = Except.error e →
      env.getDeviceByName rd.name = Except.error e2 →
      restUpdateDevice env devs rd =
        (HResp.notFoundResp (dbErrMsg e2), devs)) := by
  refine ⟨?_, ?_, ?_⟩ <;> intros <;> simp [restUpdateDevice, *]

/-- Patch carrying only the Id of `dev1`. -/
def patchIdOnly : Device := { Device.empty with id := idD1 }

/-- Patch whose Id and Name match no fixture device. -/
def patchGhost : Device := { Device.empty with id := freshId, name := freshName }

/-- Witness for C8 at concrete inputs: an Id hit proceeds with the merge
continuation; an Id and Name miss answers NotFound with the table
unchanged. -/
theorem c8_witness :
    restUpdateDevice testEnv [dev1, dev2] patchIdOnly =
      restUpdateDeviceCont testEnv [dev1, dev2] patchIdOnly dev1 ∧
    restUpdateDevice testEnv [dev1, dev2] patchGhost =
      (HResp.notFoundResp (dbErrMsg DBErr.errNotFound), [dev1, dev2]) :=
  ⟨(c8_update_lookup_id_then_name testEnv [dev1, dev2] patchIdOnly).1 dev1
     (by rfl),
   (c8_update_lookup_id_then_name testEnv [dev1, dev2] patchGhost).2.2
     DBErr.errNotFound DBErr.errNotFound (by rfl) (by rfl)⟩

/-- C10: whenever the field merge reports an error, the registry update
operation is never invoked: the handler answers 503 with the merge error
and the device table is returned unchanged (for either way the existing
device was found). -/
theorem c10_merge_error_means_no_registry_write (env : DBEnv)
    (devs : List Device) (rd oldDevice : Device) (e : UpdErr)
    (hm : updateDeviceFields env rd oldDevice = Except.error e)
    (hfound : env.getDeviceById rd.id = Except.ok oldDevice ∨
      ((∃ e2, env.getDeviceById rd.id = Except.error e2) ∧
       env.getDeviceByName rd.name = Except.ok oldDevice)) :
    restUpdateDevice env devs rd = (HResp.unavailResp (updErrMsg e), devs) := by
  rcases hfound with h | ⟨⟨e2, h1⟩, h2⟩ <;>
    simp [restUpdateDevice, restUpdateDeviceCont, *]

/-- Patch renaming `dev1` to the name held by `dev2`, triggering a
duplicate-name merge error. -/
def patchDupName : Device := { Device.empty with id := idD1, name := nameD2 }

/-- Witness for C10 at a concrete input: a duplicate-name merge error is
answered with 503 and the device table is unchanged. -/
theorem c10_witness :
    restUpdateDevice testEnv [dev1, dev2] patchDupName =
      (HResp.unavailResp (updErrMsg UpdErr.dupName), [dev1, dev2]) :=
  c10_merge_error_means_no_registry_write testEnv [dev1, dev2] patchDupName
    dev1 UpdErr.dupName (by rfl) (Or.inl (by rfl))

/-- C6: a request setting the operating state of a device to a string outside
{ENABLED, DISABLED} makes both set-op-state handlers fail with the
invalid-state error (the InvalidInput case of the taxonomy of the spec) before
any registry access: the device table comes back unchanged, so no write
occurs. -/
theorem c6_invalid_opstate_rejected (env : DBEnv) (devs : List Device)
    (did n os : String) (h1 : os ≠ "ENABLED") (h2 : os ≠ "DISABLED") :
    restSetDeviceOpStateById env devs did os =
      (HResp.unavailResp (msgInvalidOpState os), devs) ∧
    restSetDeviceOpStateByName env devs n os =
      (HResp.unavailResp (msgInvalidOpState os), devs) := by
  have hg : GetOperatingState os = none := by
    simp [GetOperatingState, h1, h2]
  constructor <;>
    simp [restSetDeviceOpStateById, restSetDeviceOpStateByName, hg]

/-- Witness for C6 at a concrete input: the string `ON` is rejected by
both handlers with the table unchanged. -/
theorem c6_witness :
    restSetDeviceOpStateById testEnv [dev1, dev2] idD1 badState =
      (HResp.unavailResp (msgInvalidOpState badState), [dev1, dev2]) ∧
    restSetDeviceOpStateByName testEnv [dev1, dev2] nameD1 badState =
      (HResp.unavailResp (msgInvalidOpState badState), [dev1, dev2]) :=
  c6_invalid_opstate_rejected testEnv [dev1, dev2] idD1 nameD1 badState
    (by decide) (by decide)

/-- C9: in `restSetDeviceOpStateById`, a registry-update failure after a
successful fetch makes the handler return silently: no error response is
written (the 503 branch after the update in the source is unreachable),
the table is unchanged, and the caller sees no failure. -/
theorem c9_opstate_by_id_swallows_update_failure (env : DBEnv)
    (devs : List Device) (did os newOs : String) (d : Device) (e : DBErr)
    (hos : GetOperatingState os = some newOs)
    (hget : env.getDeviceById did = Except.ok d)
    (hupd : env.updateDevice devs { d with operatingState := newOs } =
      Except.error e) :
    restSetDeviceOpStateById env devs did os = (HResp.silent, devs) := by
  simp [restSetDeviceOpStateById, hos, hget, hupd]

/-- Environment whose registry update always fails. -/
def failUpdEnv : DBEnv :=
  { testEnv with updateDevice := fun _ _ => Except.error (DBErr.other msgDown) }

/-- Witness for C9 at a concrete input: with a failing registry update,
setting `dev1` to ENABLED by id reports nothing at all. -/
theorem c9_witness :
    restSetDeviceOpStateById failUpdEnv [dev1, dev2] idD1 stateEnabled =
      (HResp.silent, [dev1, dev2]) :=
  c9_opstate_by_id_swallows_update_failure failUpdEnv [dev1, dev2] idD1
    stateEnabled stateEnabled dev1 (DBErr.other msgDown) (by rfl) (by rfl)
    (by rfl)

/-- C7: for a creation candidate whose three references resolve by name
and whose states are non-empty, the handler maps a name-uniqueness
violation of the registry add to the Conflict `Duplicate name for device`
with the table unchanged, and any other registry failure to a 503
transient-store error with the table unchanged; in the spec-modelled
registry the uniqueness violation occurs exactly on a name collision, so
nothing is persisted in that case. -/
theorem c7_create_add_error_mapping (env : DBEnv) (devs : List Device)
    (d : Device) (a : Addressable) (s : DeviceService) (p : DeviceProfile)
    (hA : env.getAddressableByName d.addressable.name = Except.ok a)
    (hS : env.getDeviceServiceByName d.service.service.name = Except.ok s)
    (hP : env.getDeviceProfileByName d.profile.name = Except.ok p)
    (hOp : d.operatingState ≠ "") (hAd : d.adminState ≠ "") :
    (env.addDevice devs { d with addressable := a, service := s, profile := p } =
        Except.error DBErr.errNotUnique →
      restAddNewDevice env devs d = (HResp.conflictResp msgDupDevice, devs)) ∧
    (∀ e, e ≠ DBErr.errNotUnique →
      env.addDevice devs { d with addressable := a, service := s, profile := p } =
        Except.error e →
      restAddNewDevice env devs d = (HResp.unavailResp (dbErrMsg e), devs)) ∧
    (addDeviceModel devs { d with addressable := a, service := s, profile := p } =
        Except.error DBErr.errNotUnique ↔ ∃ x ∈ devs, x.name = d.name) := by
  refine ⟨?_, ?_, ?_⟩
  · intro hadd
    simp [restAddNewDevice, lookupNameThenId, hA, hS, hP, hOp, hAd, hadd]
  · intro e hne hadd
    cases e with
    | errNotFound =>
        simp [restAddNewDevice, lookupNameThenId, hA, hS, hP, hOp, hAd, hadd]
    | errNotUnique => exact absurd rfl hne
    | other m =>
        simp [restAddNewDevice, lookupNameThenId, hA, hS, hP, hOp, hAd, hadd]
  · by_cases hc : ∃ x ∈ devs, x.name = d.name
    · simp [addDeviceModel, List.any_eq_true, hc]
    · simp [addDeviceModel, List.any_eq_true, hc]

/-- Name of fixture `addr1`. -/
def addrName1 : String := "addr1"

/-- Name of fixture `svc1`. -/
def svcName1 : String := "svcname1"

/-- Name of fixture `prof1`. -/
def profName1 : String := "prof1"

/-- Creation candidate referencing the fixture records by name and
reusing the name of `dev1`. -/
def candDup : Device :=
  ⟨"didN", nameD1, ⟨"", addrName1⟩, ⟨⟨"", svcName1⟩⟩, ⟨"", profName1⟩,
   "UNLOCKED", "ENABLED", "", none, 0, 0, none, 0⟩

/-- Environment whose registry add fails with a transient error. -/
def failAddEnv : DBEnv :=
  { testEnv with addDevice := fun _ _ => Except.error (DBErr.other msgDown) }

/-- Witness for C7 at concrete inputs: creating a second device named
`d1` is answered with the duplicate-name Conflict and the table is
unchanged; under a transiently failing registry the same candidate is
answered with a 503; the spec-modelled registry rejects exactly the name
collision. -/
theorem c7_witness :
    restAddNewDevice testEnv [dev1, dev2] candDup =
      (HResp.conflictResp msgDupDevice, [dev1, dev2]) ∧
    restAddNewDevice failAddEnv [dev1, dev2] candDup =
      (HResp.unavailResp (dbErrMsg (DBErr.other msgDown)), [dev1, dev2]) ∧
    addDeviceModel [dev1, dev2]
      { candDup with addressable := addr1, service := svc1, profile := prof1 } =
      Except.error DBErr.errNotUnique :=
  ⟨(c7_create_add_error_mapping testEnv [dev1, dev2] candDup addr1 svc1 prof1
      (by rfl) (by rfl) (by rfl) (by decide) (by decide)).1 (by rfl),
   (c7_create_add_error_mapping failAddEnv [dev1, dev2] candDup addr1 svc1 prof1
      (by rfl) (by rfl) (by rfl) (by decide) (by decide)).2.1
     (DBErr.other msgDown) (by decide) (by rfl),
   (c7_create_add_error_mapping testEnv [dev1, dev2] candDup addr1 svc1 prof1
      (by rfl) (by rfl) (by rfl) (by decide) (by decide)).2.2.mpr
     ⟨dev1, by decide, by decide⟩⟩

/-- Helper: the deletion loop on a list of reports that all delete
successfully deletes and notifies exactly that list, in order. -/
theorem deleteReportsLoop_all_ok (env : DBEnv) (l : List DeviceReport)
    (h : ∀ x ∈ l, env.deleteDeviceReport x = Except.ok ()) :
    deleteReportsLoop env l = ⟨Except.ok (), l, l⟩ := by
  induction l with
  | nil => rfl
  | cons r rs ih =>
    have hr := h r (List.mem_cons_self r rs)
    have ih2 := ih (fun x hx => h x (List.mem_cons_of_mem r hx))
    simp [deleteReportsLoop, hr, ih2]

/-- Helper: when every report before `r` deletes successfully and the
deletion of `r` fails, the loop aborts with that failure having deleted
and notified exactly the reports before `r`. -/
theorem deleteReportsLoop_fails_at (env : DBEnv) (pre : List DeviceReport)
    (r : DeviceReport) (post : List DeviceReport) (e : DBErr)
    (hpre : ∀ x ∈ pre, env.deleteDeviceReport x = Except.ok ())
    (hr : env.deleteDeviceReport r = Except.error e) :
    deleteReportsLoop env (pre ++ r :: post) = ⟨Except.error e, pre, pre⟩ := by
  induction pre with
  | nil => simp [deleteReportsLoop, hr]
  | cons x xs ih =>
    have hx := hpre x (List.mem_cons_self x xs)
    have ih2 := ih (fun y hy => hpre y (List.mem_cons_of_mem x hy))
    simp [deleteReportsLoop, hx, ih2]

/-- C3: the cascade delete removes the dependent reports one at a time in
enumeration order, notifying after each successful deletion; if the
deletion of report `r` fails, the operation aborts immediately with the
failure surfaced, exactly the reports before `r` having been deleted (and
notified) and the device record not deleted; only when every report was
removed is the device record deleted. -/
theorem c3_cascade_delete_reports_first (env : DBEnv) (d : Device)
    (pre post : List DeviceReport) (r : DeviceReport) (e : DBErr) :
    (env.getDeviceReportsByDeviceName d.name = Except.ok (pre ++ r :: post) →
     (∀ x ∈ pre, env.deleteDeviceReport x = Except.ok ()) →
     env.deleteDeviceReport r = Except.error e →
     deleteDevice env d = ⟨Except.error e, pre, pre, false⟩) ∧
    (∀ l, env.getDeviceReportsByDeviceName d.name = Except.ok l →
     (∀ x ∈ l, env.deleteDeviceReport x = Except.ok ()) →
     env.deleteDeviceRecord d = Except.ok () →
     (deleteDevice env d).deletedReports = l ∧
     (deleteDevice env d).notifiedReports = l ∧
     (deleteDevice env d).deviceDeleted = true) := by
  constructor
  · intro hg hpre hr
    have hloop := deleteReportsLoop_fails_at env pre r post e hpre hr
    simp [deleteDevice, deleteAssociatedReportsForDevice, hg, hloop]
  · intro l hg hall hdel
    have hloop := deleteReportsLoop_all_ok env l hall
    rcases hn : notifyDeviceAssociates env d methodDelete with e2 | u <;>
      simp [deleteDevice, deleteAssociatedReportsForDevice, hg, hloop, hdel, hn]

/-- Environment in which deleting report `rep2` fails. -/
def failRep2Env : DBEnv :=
  { testEnv with deleteDeviceReport := fun r =>
      if r.id == rep2.id then Except.error (DBErr.other msgDown)
      else Except.ok () }

/-- Witness for C3 at concrete inputs: with the second of three reports
failing to delete, the cascade aborts having deleted and notified only
the first report, the device stays; with no failures all three reports
are deleted and notified and the device record is deleted. -/
theorem c3_witness :
    deleteDevice failRep2Env dev1 =
      ⟨Except.error (DBErr.other msgDown), [rep1], [rep1], false⟩ ∧
    ((deleteDevice testEnv dev1).deletedReports = [rep1, rep2, rep3] ∧
     (deleteDevice testEnv dev1).notifiedReports = [rep1, rep2, rep3] ∧
     (deleteDevice testEnv dev1).deviceDeleted = true) :=
  ⟨(c3_cascade_delete_reports_first failRep2Env dev1 [rep1] [rep3] rep2
      (DBErr.other msgDown)).1 (by rfl)
      (by intro x hx
          simp only [List.mem_singleton] at hx
          subst hx
          rfl)
      (by rfl),
   (c3_cascade_delete_reports_first testEnv dev1 [] [] rep1
      DBErr.errNotFound).2 [rep1, rep2, rep3] (by rfl)
      (by intro x hx; rfl) (by rfl)⟩

/-- Resolver following the wording of the spec (section 4.1), stated for
comparison with the code: attempt lookup by the id hint first and, only
on failure of the id lookup, by the name hint. -/
def resolveSpecOrder {α : Type} (byId byName : String → Except DBErr α)
    (idHint nameHint : String) : Except DBErr α :=
  match byId idHint with
  | Except.ok a => Except.ok a
  | Except.error _ => byName nameHint

/-- Addressable found under the id hint of the C1 counterexample
candidate. -/
def addrP : Addressable := ⟨"aidP", "addrP"⟩

/-- Addressable found under the name hint of the C1 counterexample
candidate, distinct from `addrP`. -/
def addrQ : Addressable := ⟨"aidQ", "addrQ"⟩

/-- Environment for the C1 counterexample: both the id hint and the name
hint of the addressable hints of the candidate resolve, to different records. -/
def cexEnv : DBEnv := mkEnv [addrP, addrQ] [svc1] [prof1] [] []

/-- Creation candidate whose addressable id hint names `addrP` and whose
addressable name hint names `addrQ`. -/
def candPQ : Device :=
  ⟨"didP", "dP", ⟨"aidP", "addrQ"⟩, ⟨⟨"", svcName1⟩⟩, ⟨"", profName1⟩,
   "UNLOCKED", "ENABLED", "", none, 0, 0, none, 0⟩

/-- Counterexample to C1 as stated: for a creation candidate the code
resolves the addressable by name first — here both hints resolve, the
persisted device carries `addrQ` (the name hit), while the id-first order
the claim prescribes would yield `addrP ≠ addrQ`. -/
theorem c1_counterexample :
    restAddNewDevice cexEnv [] candPQ =
      (HResp.okResp candPQ.id,
       [{ candPQ with addressable := addrQ, service := svc1, profile := prof1 }]) ∧
    resolveSpecOrder cexEnv.getAddressableById cexEnv.getAddressableByName
      candPQ.addressable.id candPQ.addressable.name = Except.ok addrP ∧
    addrP ≠ addrQ :=
  ⟨by rfl, by rfl, by decide⟩

/-- C1 (amended): update patches resolve each foreign reference by id
first and only on failure by name, while creation candidates resolve by
name first and only on failure by id; in both flows, when both lookups
fail the reference is reported unresolvable (per-kind conflict message at
creation, per-kind merge error at update). -/
theorem c1_resolution_order (α : Type) (byId byName : String → Except DBErr α)
    (i n : String) (env : DBEnv) (devs : List Device) (f t d : Device) :
    (∀ a, byName n = Except.ok a →
      lookupNameThenId byName byId n i = Except.ok a) ∧
    (∀ e, byName n = Except.error e →
      lookupNameThenId byName byId n i = byId i) ∧
    (∀ a, byId i = Except.ok a →
      lookupIdThenName byId byName i n = Except.ok a) ∧
    (∀ e, byId i = Except.error e →
      lookupIdThenName byId byName i n = byName n) ∧
    (∀ e1 e2, env.getAddressableByName d.addressable.name = Except.error e1 →
      env.getAddressableById d.addressable.id = Except.error e2 →
      restAddNewDevice env devs d =
        (HResp.conflictResp (dbErrMsg e2 ++ msgAddrAssoc), devs)) ∧
    (∀ a e1 e2, env.getAddressableByName d.addressable.name = Except.ok a →
      env.getDeviceServiceByName d.service.service.name = Except.error e1 →
      env.getDeviceServiceById d.service.service.id = Except.error e2 →
      restAddNewDevice env devs d =
        (HResp.conflictResp (dbErrMsg e2 ++ msgSvcAssoc), devs)) ∧
    (∀ a s e1 e2, env.getAddressableByName d.addressable.name = Except.ok a →
      env.getDeviceServiceByName d.service.service.name = Except.ok s →
      env.getDeviceProfileByName d.profile.name = Except.error e1 →
      env.getDeviceProfileById d.profile.id = Except.error e2 →
      restAddNewDevice env devs d =
        (HResp.conflictResp (dbErrMsg e2 ++ msgProfAssoc), devs)) ∧
    (f.addressable ≠ Addressable.empty →
      ∀ e1 e2, env.getAddressableById f.addressable.id = Except.error e1 →
        env.getAddressableByName f.addressable.name = Except.error e2 →
        updateDeviceFields env f t = Except.error UpdErr.addrNotFound) ∧
    (f.addressable = Addressable.empty → f.service ≠ DeviceService.empty →
      ∀ e1 e2, env.getDeviceServiceById f.service.service.id = Except.error e1 →
        env.getDeviceServiceByName f.service.service.name = Except.error e2 →
        updateDeviceFields env f t = Except.error UpdErr.svcNotFound) ∧
    (f.addressable = Addressable.empty → f.service = DeviceService.empty →
      f.profile ≠ DeviceProfile.empty →
      ∀ e1 e2, env.getDeviceProfileById f.profile.id = Except.error e1 →
        env.getDeviceProfileByName f.profile.name = Except.error e2 →
        updateDeviceFields env f t = Except.error UpdErr.profNotFound) := by
  refine ⟨?_, ?_, ?_, ?_, ?_, ?_, ?_, ?_, ?_, ?_⟩
  · intro a h; simp [lookupNameThenId, h]
  · intro e h; simp [lookupNameThenId, h]
  · intro a h; simp [lookupIdThenName, h]
  · intro e h; simp [lookupIdThenName, h]
  · intro e1 e2 h1 h2
    simp [restAddNewDevice, lookupNameThenId, h1, h2]
  · intro a e1 e2 hA h1 h2
    simp [restAddNewDevice, lookupNameThenId, hA, h1, h2]
  · intro a s e1 e2 hA hS h1 h2
    simp [restAddNewDevice, lookupNameThenId, hA, hS, h1, h2]
  · intro hne e1 e2 h1 h2
    simp [updateDeviceFields, lookupIdThenName, hne, h1, h2]
  · intro haddr hne e1 e2 h1 h2
    simp [updateDeviceFields, lookupIdThenName, haddr, hne, h1, h2]
  · intro haddr hsvc hne e1 e2 h1 h2
    simp [updateDeviceFields, lookupIdThenName, haddr, hsvc, hne, h1, h2]

/-- Id of fixture `addr1`. -/
def idA1 : String := "aid1"

/-- Creation candidate whose addressable hints match nothing. -/
def candGhostAddr : Device :=
  ⟨"didG", "dG", ⟨freshId, freshName⟩, ⟨⟨"", svcName1⟩⟩, ⟨"", profName1⟩,
   "UNLOCKED", "ENABLED", "", none, 0, 0, none, 0⟩

/-- Update patch whose addressable hints match nothing. -/
def patchGhostAddr : Device :=
  { Device.empty with addressable := ⟨freshId, freshName⟩ }

/-- Witness for the amended C1 at concrete inputs: a name hit wins at
creation order, an id hit wins at update order, and a doubly missing
addressable is reported unresolvable in both flows. -/
theorem c1_witness :
    lookupNameThenId testEnv.getAddressableByName testEnv.getAddressableById
      addrName1 freshId = Except.ok addr1 ∧
    lookupIdThenName testEnv.getAddressableById testEnv.getAddressableByName
      idA1 freshName = Except.ok addr1 ∧
    restAddNewDevice testEnv [] candGhostAddr =
      (HResp.conflictResp (dbErrMsg DBErr.errNotFound ++ msgAddrAssoc), []) ∧
    updateDeviceFields testEnv patchGhostAddr dev1 =
      Except.error UpdErr.addrNotFound :=
  ⟨(c1_resolution_order Addressable testEnv.getAddressableById
      testEnv.getAddressableByName freshId addrName1 testEnv [] Device.empty
      Device.empty Device.empty).1 addr1 (by rfl),
   (c1_resolution_order Addressable testEnv.getAddressableById
      testEnv.getAddressableByName idA1 freshName testEnv [] Device.empty
      Device.empty Device.empty).2.2.1 addr1 (by rfl),
   (c1_resolution_order Addressable testEnv.getAddressableById
      testEnv.getAddressableByName freshId freshName testEnv []
      Device.empty Device.empty candGhostAddr).2.2.2.2.1
     DBErr.errNotFound DBErr.errNotFound (by rfl) (by rfl),
   (c1_resolution_order Addressable testEnv.getAddressableById
      testEnv.getAddressableByName freshId freshName testEnv []
      patchGhostAddr dev1 Device.empty).2.2.2.2.2.2.2.1 (by decide)
     DBErr.errNotFound DBErr.errNotFound (by rfl) (by rfl)⟩

/-- Error message of the failing associate notifier used against C2. -/
def msgNotifyDown : String := "notifier down"

/-- Environment whose associate notifier always fails. -/
def failNotifyEnv : DBEnv :=
  { testEnv with notifyAssociates := fun _ _ _ =>
      Except.error (DBErr.other msgNotifyDown) }

/-- Valid creation candidate with a fresh name, referencing the fixture
records by name. -/
def candOk : Device :=
  ⟨"didN2", freshName, ⟨"", addrName1⟩, ⟨⟨"", svcName1⟩⟩, ⟨"", profName1⟩,
   "UNLOCKED", "ENABLED", "", none, 0, 0, none, 0⟩

/-- `candOk` with its references replaced by the resolved fixture
records, as persisted by the creation handler. -/
def candOkResolved : Device :=
  { candOk with addressable := addr1, service := svc1, profile := prof1 }

/-- Counterexample to C2 as stated: creating `candOk` under a failing
associate notifier still answers 200 with the device id and commits the
record — the notification failure is not returned to the caller — even
though the associate notification of this very device does fail. -/
theorem c2_counterexample :
    restAddNewDevice failNotifyEnv [dev1, dev2] candOk =
      (HResp.okResp candOk.id, [dev1, dev2, candOkResolved]) ∧
    notifyDeviceAssociates failNotifyEnv candOkResolved methodPost =
      Except.error (DBErr.other msgNotifyDown) :=
  ⟨by rfl, by rfl⟩

/-- C2 (amended): only for delete is an associate-notification failure
returned to the caller — after the device record has already been
removed; for create and for update the handlers discard the
notification outcome and still answer 200 even when the associate
notification of the committed record fails. -/
theorem c2_notify_failure_propagation (env : DBEnv) (devs devs2 : List Device)
    (d merged rd old : Device) (l : List DeviceReport) (e : DBErr)
    (a : Addressable) (s : DeviceService) (p : DeviceProfile) :
    (env.getDeviceReportsByDeviceName d.name = Except.ok l →
     (∀ x ∈ l, env.deleteDeviceReport x = Except.ok ()) →
     env.deleteDeviceRecord d = Except.ok () →
     notifyDeviceAssociates env d methodDelete = Except.error e →
     deleteDevice env d = ⟨Except.error e, l, l, true⟩) ∧
    (env.getAddressableByName d.addressable.name = Except.ok a →
     env.getDeviceServiceByName d.service.service.name = Except.ok s →
     env.getDeviceProfileByName d.profile.name = Except.ok p →
     d.operatingState ≠ "" → d.adminState ≠ "" →
     env.addDevice devs { d with addressable := a, service := s, profile := p } =
       Except.ok devs2 →
     notifyDeviceAssociates env
       { d with addressable := a, service := s, profile := p } methodPost =
       Except.error e →
     restAddNewDevice env devs d = (HResp.okResp d.id, devs2)) ∧
    (env.getDeviceById rd.id = Except.ok old →
     updateDeviceFields env rd old = Except.ok merged →
     env.updateDevice devs merged = Except.ok devs2 →
     notifyDeviceAssociates env merged methodPut = Except.error e →
     restUpdateDevice env devs rd = (HResp.okResp respTrue, devs2)) := by
  refine ⟨?_, ?_, ?_⟩
  · intro hg hall hdel hn
    have hloop := deleteReportsLoop_all_ok env l hall
    simp [deleteDevice, deleteAssociatedReportsForDevice, hg, hloop, hdel, hn]
  · intro hA hS hP hOp hAd hadd hn
    simp [restAddNewDevice, lookupNameThenId, hA, hS, hP, hOp, hAd, hadd]
  · intro hget hm hupd hn
    simp [restUpdateDevice, restUpdateDeviceCont, hget, hm, hupd]

/-- Witness for the amended C2 at concrete inputs: under the failing
notifier, deleting `dev1` surfaces the notifier error with the device
already deleted, while creating `candOk` and updating `dev1` both still
answer 200. -/
theorem c2_witness :
    deleteDevice failNotifyEnv dev1 =
      ⟨Except.error (DBErr.other msgNotifyDown), [rep1, rep2, rep3],
       [rep1, rep2, rep3], true⟩ ∧
    restAddNewDevice failNotifyEnv [dev1, dev2] candOk =
      (HResp.okResp candOk.id, [dev1, dev2, candOkResolved]) ∧
    restUpdateDevice failNotifyEnv [dev1, dev2] patchIdOnly =
      (HResp.okResp respTrue, [dev1, dev2]) :=
  ⟨(c2_notify_failure_propagation failNotifyEnv [dev1, dev2] [dev1, dev2]
      dev1 dev1 dev1 dev1 [rep1, rep2, rep3] (DBErr.other msgNotifyDown)
      addr1 svc1 prof1).1 (by rfl) (by intro x hx; rfl) (by rfl) (by rfl),
   (c2_notify_failure_propagation failNotifyEnv [dev1, dev2]
      [dev1, dev2, candOkResolved] candOk dev1 dev1 dev1 []
      (DBErr.other msgNotifyDown) addr1 svc1 prof1).2.1 (by rfl) (by rfl)
     (by rfl) (by decide) (by decide) (by rfl) (by rfl),
   (c2_notify_failure_propagation failNotifyEnv [dev1, dev2] [dev1, dev2]
      dev1 dev1 patchIdOnly dev1 [] (DBErr.other msgNotifyDown) addr1 svc1
      prof1).2.2 (by rfl) (by rfl) (by rfl) (by rfl)⟩

end EdgexMetadata
